import Mathlib

set_option maxRecDepth 8192

/-!
Verification of the Engagespot Rust client library.

This file gives a shallow embedding of the library's data model
(NotificationItem, Notification and their builders from
src/notification_item.rs and src/notification.rs), of the client
configuration (EngagespotBuilder, Engagespot from src/client.rs), of the
serde serialization of the payload types, and of the response handling of
the two HTTP operations, together with theorems settling the spec claims.

Naming: Rust setter methods whose names collide with a Lean structure
projection (NotificationItem::title, EngagespotBuilder::base_url, ...)
are embedded with a set_ prefix; everything else keeps the source name.
-/

/-- JSON values, as produced by the serde serialization of the request
payload types. -/
inductive Json where
  | null : Json
  | str : String → Json
  | arr : List Json → Json
  | obj : List (String × Json) → Json

/-- First value bound to a key in a JSON object field list. -/
def lookupField : List (String × Json) → String → Option Json
  | [], _ => none
  | (k2, v) :: rest, k => if k2 = k then some v else lookupField rest k

/-- Key lookup on a JSON value (none on non-objects). -/
def Json.lookup (j : Json) (k : String) : Option Json :=
  match j with
  | .obj fields => lookupField fields k
  | _ => none

/-- The keys of a JSON object, in emission order (empty on non-objects). -/
def Json.keys : Json → List String
  | .obj fields => fields.map Prod.fst
  | _ => []

/-- serde serialization of Option String: None emits null, Some emits the
string. This is also the serializer of the default payload type parameter
of Notification (T = Option String). -/
def optStr : Option String → Json
  | none => Json.null
  | some s => Json.str s

/-- NotificationItem (src/notification_item.rs): title required, message,
url and icon optional. -/
structure NotificationItem where
  title : String
  message : Option String
  url : Option String
  icon : Option String

/-- NotificationItem::new — title only, the optional fields absent. -/
def NotificationItem.new (title : String) : NotificationItem :=
  { title := title, message := none, url := none, icon := none }

/-- NotificationItem::with_args — all four fields in one call. -/
def NotificationItem.with_args (title message url icon : String) : NotificationItem :=
  { title := title, message := some message, url := some url, icon := some icon }

/-- NotificationItem::title setter. -/
def NotificationItem.set_title (n : NotificationItem) (title : String) : NotificationItem :=
  { n with title := title }

/-- NotificationItem::message setter. -/
def NotificationItem.set_message (n : NotificationItem) (message : String) : NotificationItem :=
  { n with message := some message }

/-- NotificationItem::url setter. -/
def NotificationItem.set_url (n : NotificationItem) (url : String) : NotificationItem :=
  { n with url := some url }

/-- NotificationItem::icon setter. -/
def NotificationItem.set_icon (n : NotificationItem) (icon : String) : NotificationItem :=
  { n with icon := some icon }

/-- serde derive for NotificationItem: every field is emitted, in
declaration order; the Option fields carry no skip attribute in
src/notification_item.rs, so an absent field is emitted as null. -/
def NotificationItem.toJson (n : NotificationItem) : Json :=
  Json.obj [("title", Json.str n.title), ("message", optStr n.message),
            ("url", optStr n.url), ("icon", optStr n.icon)]

/-- Notification (src/notification.rs): envelope around a
NotificationItem, with recipients, optional generic data and optional
category. -/
structure Notification (T : Type) where
  notification : NotificationItem
  recipients : List String
  data : Option T
  category : Option String

/-- A key/value emitted only when the optional value is present: the serde
skip_serializing_if attribute on data and category. -/
def optionalField (key : String) : Option Json → List (String × Json)
  | none => []
  | some j => [(key, j)]

/-- serde derive for Notification: notification and recipients always
emitted; data and category carry skip_serializing_if Option::is_none in
src/notification.rs, so they are omitted entirely when absent. ser is the
serializer of the payload type T. -/
def Notification.toJson {T : Type} (ser : T → Json) (n : Notification T) : Json :=
  Json.obj ([("notification", n.notification.toJson),
             ("recipients", Json.arr (n.recipients.map Json.str))]
    ++ optionalField "data" (n.data.map ser)
    ++ optionalField "category" (n.category.map Json.str))

/-- NotificationBuilder (src/notification.rs): working NotificationItem,
a reference to the recipients list, optional data and category. -/
structure NotificationBuilder (T : Type) where
  notification : NotificationItem
  recipients : List String
  data : Option T
  category : Option String

/-- NotificationBuilder::new — item defaulted from the title, recipients
stored by reference, data and category absent. -/
def NotificationBuilder.new (T : Type) (title : String) (recipients : List String) :
    NotificationBuilder T :=
  { notification := NotificationItem.new title, recipients := recipients,
    data := none, category := none }

/-- NotificationBuilder::notification_item — replaces the working item. -/
def NotificationBuilder.notification_item {T : Type} (b : NotificationBuilder T)
    (notification : NotificationItem) : NotificationBuilder T :=
  { b with notification := notification }

/-- NotificationBuilder::title — delegates to the item's title setter. -/
def NotificationBuilder.title {T : Type} (b : NotificationBuilder T) (title : String) :
    NotificationBuilder T :=
  { b with notification := b.notification.set_title title }

/-- NotificationBuilder::message — delegates to the item's message setter. -/
def NotificationBuilder.message {T : Type} (b : NotificationBuilder T) (message : String) :
    NotificationBuilder T :=
  { b with notification := b.notification.set_message message }

/-- NotificationBuilder::url — delegates to the item's url setter. -/
def NotificationBuilder.url {T : Type} (b : NotificationBuilder T) (url : String) :
    NotificationBuilder T :=
  { b with notification := b.notification.set_url url }

/-- NotificationBuilder::icon — delegates to the item's icon setter. -/
def NotificationBuilder.icon {T : Type} (b : NotificationBuilder T) (icon : String) :
    NotificationBuilder T :=
  { b with notification := b.notification.set_icon icon }

/-- NotificationBuilder::recipients setter. -/
def NotificationBuilder.set_recipients {T : Type} (b : NotificationBuilder T)
    (recipients : List String) : NotificationBuilder T :=
  { b with recipients := recipients }

/-- NotificationBuilder::data setter. -/
def NotificationBuilder.set_data {T : Type} (b : NotificationBuilder T) (data : T) :
    NotificationBuilder T :=
  { b with data := some data }

/-- NotificationBuilder::category setter. -/
def NotificationBuilder.set_category {T : Type} (b : NotificationBuilder T)
    (category : String) : NotificationBuilder T :=
  { b with category := some category }

/-- NotificationBuilder::build — copies the recipients list (clone in the
source) into the immutable Notification. -/
def NotificationBuilder.build {T : Type} (b : NotificationBuilder T) : Notification T :=
  { notification := b.notification, recipients := b.recipients,
    data := b.data, category := b.category }

/-- Outcome of a Rust computation that may reach a panic. -/
inductive RustOutcome (α : Type) where
  | ok : α → RustOutcome α
  | panicked : String → RustOutcome α

/-- Map over the success case, panic propagated. -/
def RustOutcome.map {α β : Type} (f : α → β) : RustOutcome α → RustOutcome β
  | .ok a => .ok (f a)
  | .panicked m => .panicked m

/-- Validity of one byte of an HTTP header value, as checked by
HeaderValue::from_str: horizontal tab, or any byte that is at least 32 and
not DEL. Stated on chars: chars below 128 are single UTF-8 bytes, and
every byte of a char at or above 128 is itself at least 128 and hence
valid, so the char-level check agrees with the byte-level one. -/
def isValidHeaderChar (c : Char) : Bool :=
  c.toNat == 9 || (decide (32 ≤ c.toNat) && c.toNat != 127)

/-- HeaderValue::from_str succeeds exactly when every char is valid. -/
def isValidHeaderValue (s : String) : Bool :=
  s.data.all isValidHeaderChar

/-- The configured HTTP transport: reqwest::Client carrying the three
default headers and the user agent set in create_default_client. -/
structure HttpClient where
  content_type : String
  api_key : String
  api_secret : String
  user_agent : String

/-- create_default_client (src/client.rs): builds the transport with
Content-Type, X-ENGAGESPOT-API-KEY and X-ENGAGESPOT-API-SECRET headers;
the two HeaderValue::from_str(..).unwrap() calls panic on an invalid
header value. -/
def create_default_client (api_key api_secret : String) : RustOutcome HttpClient :=
  if isValidHeaderValue api_key then
    if isValidHeaderValue api_secret then
      RustOutcome.ok { content_type := "application/json", api_key := api_key,
                       api_secret := api_secret, user_agent := "engagespot-rust" }
    else RustOutcome.panicked "invalid HTTP header value: api_secret"
  else RustOutcome.panicked "invalid HTTP header value: api_key"

/-- DEFAULT_BASE_URL constant of src/client.rs. -/
def DEFAULT_BASE_URL : String := "https://api.engagespot.co/v3"

/-- EngagespotBuilder (src/client.rs). -/
structure EngagespotBuilder where
  base_url : String
  client : HttpClient

/-- The Engagespot client. -/
structure Engagespot where
  base_url : String
  client : HttpClient

/-- EngagespotBuilder::new — default base url, transport from
create_default_client; a construction failure is a panic. -/
def EngagespotBuilder.new (api_key api_secret : String) : RustOutcome EngagespotBuilder :=
  match create_default_client api_key api_secret with
  | .ok c => .ok { base_url := DEFAULT_BASE_URL, client := c }
  | .panicked m => .panicked m

/-- EngagespotBuilder::base_url setter. -/
def EngagespotBuilder.set_base_url (b : EngagespotBuilder) (base_url : String) :
    EngagespotBuilder :=
  { b with base_url := base_url }

/-- EngagespotBuilder::build. -/
def EngagespotBuilder.build (b : EngagespotBuilder) : Engagespot :=
  { base_url := b.base_url, client := b.client }

/-- Engagespot::new — sugar for EngagespotBuilder::new(..).build(). -/
def Engagespot.new (api_key api_secret : String) : RustOutcome Engagespot :=
  match EngagespotBuilder.new api_key api_secret with
  | .ok b => .ok b.build
  | .panicked m => .panicked m

/-- HTTP method of an outbound request. -/
inductive HttpMethod where
  | POST : HttpMethod
  | PUT : HttpMethod

/-- The single outbound HTTP request an operation issues. -/
structure HttpRequest where
  method : HttpMethod
  url : String
  body : Json

/-- Engagespot::get_url. -/
def Engagespot.get_url (c : Engagespot) (path : String) : String :=
  c.base_url ++ "/" ++ path

/-- The one request issued by Engagespot::send: POST to
base_url/notifications with the serialized Notification as body. -/
def Engagespot.send_request {T : Type} (ser : T → Json) (c : Engagespot)
    (n : Notification T) : HttpRequest :=
  { method := HttpMethod.POST, url := c.get_url "notifications",
    body := Notification.toJson ser n }

/-- The one request issued by Engagespot::create_or_update_user_attrs:
PUT to base_url/users/identifier, the identifier interpolated as-is, with
the serialized attrs as body. -/
def Engagespot.create_or_update_user_attrs_request (c : Engagespot)
    (identifier : String) (attrs : Json) : HttpRequest :=
  { method := HttpMethod.PUT, url := c.get_url ("users/" ++ identifier),
    body := attrs }

/-- reqwest StatusCode::is_success: 200 to 299. -/
def statusIsSuccess (status : Nat) : Bool :=
  decide (200 ≤ status) && decide (status < 300)

/-- Engagespot::handle_response on a response whose body text was read:
non-success status returns the body on the error channel, success status
returns the same body on the success channel. -/
def Engagespot.handle_response (status : Nat) (response_text : String) :
    Except String String :=
  if !(statusIsSuccess status) then Except.error response_text
  else Except.ok response_text

/-- What the transport hands back for one request: either a transport
error (DNS, TLS, connection refused), or a response with a status and the
outcome of reading its body text (reading can itself fail). -/
inductive TransportOutcome where
  | transport_error : String → TransportOutcome
  | response : Nat → Except String String → TransportOutcome

/-- Shared result handling of send and create_or_update_user_attrs: a
transport error becomes Err(error.to_string()); a response goes through
handle_response, whose response.text().await.unwrap() (src/client.rs,
line 152) panics when reading the body text fails. -/
def Engagespot.request_result (o : TransportOutcome) : RustOutcome (Except String String) :=
  match o with
  | .transport_error e => .ok (.error e)
  | .response status (.ok body) => .ok (Engagespot.handle_response status body)
  | .response _ (.error e) =>
      .panicked ("called Result::unwrap on an Err value: " ++ e)

/-- Result of Engagespot::send for a given transport outcome. -/
def Engagespot.send_result (o : TransportOutcome) : RustOutcome (Except String String) :=
  Engagespot.request_result o

/-- Result of Engagespot::create_or_update_user_attrs for a given
transport outcome. -/
def Engagespot.create_or_update_user_attrs_result (o : TransportOutcome) :
    RustOutcome (Except String String) :=
  Engagespot.request_result o

/-- Claim C9: the all-fields constructor NotificationItem::with_args
equals NotificationItem::new followed by the three optional-field
setters. -/
theorem c9_with_args_equals_chained_setters (t m u i : String) :
    NotificationItem.with_args t m u i
      = (((NotificationItem.new t).set_message m).set_url u).set_icon i := rfl

/-- Claim C10: NotificationBuilder::notification_item replaces the whole
working item with x, leaves recipients, data and category unchanged, and
the built notification equals x. -/
theorem c10_notification_item_replaces {T : Type} (b : NotificationBuilder T)
    (x : NotificationItem) :
    (b.notification_item x).notification = x
    ∧ (b.notification_item x).recipients = b.recipients
    ∧ (b.notification_item x).data = b.data
    ∧ (b.notification_item x).category = b.category
    ∧ ((b.notification_item x).build).notification = x :=
  ⟨rfl, rfl, rfl, rfl, rfl⟩

/-- Claim C7: builder chaining of the disjoint title and message setters
is order independent: title then message builds the same Notification as
message then title. -/
theorem c7_title_message_order_independent {T : Type} (b : NotificationBuilder T)
    (a m : String) :
    ((b.title a).message m).build = ((b.message m).title a).build := by
  rcases b with ⟨⟨t, ms, u, i⟩, r, d, c⟩
  rfl

/-- Claim C1 counterexample: a NotificationItem with only the title set
does serialize with message, url and icon keys present — each bound to
null — because the Option fields of NotificationItem carry no serde skip
attribute. -/
theorem c1_absent_fields_counterexample :
    (NotificationItem.toJson (NotificationItem.new "Title")).lookup "message"
      = some Json.null
    ∧ (NotificationItem.toJson (NotificationItem.new "Title")).keys
      = ["title", "message", "url", "icon"] := ⟨rfl, rfl⟩

/-- Claim C1 amended: the Notification envelope omits absent data and
category keys entirely, but the NotificationItem fields message, url and
icon are always emitted, an absent one as null. -/
theorem c1_absent_fields_amended {T : Type} (ser : T → Json) (title : String)
    (item : NotificationItem) (recipients : List String) :
    NotificationItem.toJson (NotificationItem.new title)
      = Json.obj [("title", Json.str title), ("message", Json.null),
                  ("url", Json.null), ("icon", Json.null)]
    ∧ (Notification.toJson ser
        { notification := item, recipients := recipients,
          data := none, category := none }).keys
      = ["notification", "recipients"] := ⟨rfl, rfl⟩

/-- Claim C2: for a response whose body text was read, a 2xx status
returns that body verbatim on the success channel of both send and
create_or_update_user_attrs, and a non-2xx status returns the identical
body verbatim on the error channel. -/
theorem c2_response_text_verbatim (status : Nat) (body : String) :
    (200 ≤ status ∧ status < 300 →
      Engagespot.send_result (TransportOutcome.response status (Except.ok body))
        = RustOutcome.ok (Except.ok body)
      ∧ Engagespot.create_or_update_user_attrs_result
          (TransportOutcome.response status (Except.ok body))
        = RustOutcome.ok (Except.ok body))
    ∧ (¬(200 ≤ status ∧ status < 300) →
      Engagespot.send_result (TransportOutcome.response status (Except.ok body))
        = RustOutcome.ok (Except.error body)
      ∧ Engagespot.create_or_update_user_attrs_result
          (TransportOutcome.response status (Except.ok body))
        = RustOutcome.ok (Except.error body)) := by
  constructor
  · intro h
    have hs : statusIsSuccess status = true := by
      simp only [statusIsSuccess, Bool.and_eq_true, decide_eq_true_eq]
      omega
    constructor <;>
      simp [Engagespot.send_result, Engagespot.create_or_update_user_attrs_result,
            Engagespot.request_result, Engagespot.handle_response, hs]
  · intro h
    have hs : statusIsSuccess status = false := by
      simp only [statusIsSuccess, Bool.and_eq_false_iff, decide_eq_false_iff_not]
      omega
    constructor <;>
      simp [Engagespot.send_result, Engagespot.create_or_update_user_attrs_result,
            Engagespot.request_result, Engagespot.handle_response, hs]

/-- Witness for C2 at status 200 and 404. -/
theorem c2_response_text_verbatim_witness :
    (Engagespot.send_result (TransportOutcome.response 200 (Except.ok "okbody"))
        = RustOutcome.ok (Except.ok "okbody")
      ∧ Engagespot.create_or_update_user_attrs_result
          (TransportOutcome.response 200 (Except.ok "okbody"))
        = RustOutcome.ok (Except.ok "okbody"))
    ∧ (Engagespot.send_result (TransportOutcome.response 404 (Except.ok "errbody"))
        = RustOutcome.ok (Except.error "errbody")
      ∧ Engagespot.create_or_update_user_attrs_result
          (TransportOutcome.response 404 (Except.ok "errbody"))
        = RustOutcome.ok (Except.error "errbody")) :=
  ⟨(c2_response_text_verbatim 200 "okbody").1 (by omega),
   (c2_response_text_verbatim 404 "errbody").2 (by omega)⟩

/-- Claim C3 counterexample: the operations can panic past construction:
a transport outcome whose response body text fails to read makes
send_result reach the unwrap in handle_response and panic instead of
returning a Result. -/
theorem c3_no_panic_counterexample :
    Engagespot.send_result
        (TransportOutcome.response 200 (Except.error "body read failed"))
      = RustOutcome.panicked
          ("called Result::unwrap on an Err value: " ++ "body read failed") := rfl

/-- Claim C3 amended: send and create_or_update_user_attrs return a
text-bearing Result on every transport error and on every response whose
body text is read successfully; besides the construction panic, they
panic exactly when reading the response body text fails. -/
theorem c3_result_channels_amended (status : Nat) (body msg : String) :
    Engagespot.send_result (TransportOutcome.transport_error msg)
      = RustOutcome.ok (Except.error msg)
    ∧ Engagespot.create_or_update_user_attrs_result (TransportOutcome.transport_error msg)
      = RustOutcome.ok (Except.error msg)
    ∧ Engagespot.send_result (TransportOutcome.response status (Except.ok body))
      = RustOutcome.ok (Engagespot.handle_response status body)
    ∧ Engagespot.create_or_update_user_attrs_result
        (TransportOutcome.response status (Except.ok body))
      = RustOutcome.ok (Engagespot.handle_response status body) :=
  ⟨rfl, rfl, rfl, rfl⟩

/-- Claim C4: for a non-empty recipients list, the Notification built by
NotificationBuilder::new(title, recipients).build() serializes with a
recipients key bound to exactly that list, in order, and its
notification.title equals the given title. -/
theorem c4_build_recipients_title (title : String) (recipients : List String)
    (_h : recipients ≠ []) :
    (((NotificationBuilder.new (Option String) title recipients).build).toJson
        optStr).lookup "recipients"
      = some (Json.arr (recipients.map Json.str))
    ∧ ((NotificationBuilder.new (Option String) title recipients).build).notification.title
      = title :=
  ⟨rfl, rfl⟩

/-- Witness for C4 at a concrete title and one-element recipients list. -/
theorem c4_build_recipients_title_witness :
    (((NotificationBuilder.new (Option String) "Title" ["dest"]).build).toJson
        optStr).lookup "recipients"
      = some (Json.arr (List.map Json.str ["dest"]))
    ∧ ((NotificationBuilder.new (Option String) "Title" ["dest"]).build).notification.title
      = "Title" :=
  c4_build_recipients_title "Title" ["dest"] (by simp)

/-- Claim C5: when both header values are valid, EngagespotBuilder::new
succeeds; the built client's base_url is DEFAULT_BASE_URL when the
base_url setter is not called, and is u when set_base_url u is chained
before build. -/
theorem c5_base_url_default_and_override (k s u : String)
    (hk : isValidHeaderValue k = true) (hs : isValidHeaderValue s = true) :
    ∃ b, EngagespotBuilder.new k s = RustOutcome.ok b
      ∧ b.build.base_url = DEFAULT_BASE_URL
      ∧ (b.set_base_url u).build.base_url = u := by
  refine ⟨{ base_url := DEFAULT_BASE_URL,
            client := { content_type := "application/json", api_key := k,
                        api_secret := s, user_agent := "engagespot-rust" } },
          ?_, rfl, rfl⟩
  simp [EngagespotBuilder.new, create_default_client, hk, hs]

/-- Witness for C5 at concrete key, secret and override url. -/
theorem c5_base_url_default_and_override_witness :
    ∃ b, EngagespotBuilder.new "api_key" "api_secret" = RustOutcome.ok b
      ∧ b.build.base_url = DEFAULT_BASE_URL
      ∧ (b.set_base_url "https://api.engagespot.co/v5").build.base_url
        = "https://api.engagespot.co/v5" :=
  c5_base_url_default_and_override "api_key" "api_secret"
    "https://api.engagespot.co/v5" (by decide) (by decide)

/-- Claim C6: Engagespot::new(k, s) is the same computation as
EngagespotBuilder::new(k, s).build(): the outcomes agree for every key
and secret, success value and panic alike, so in particular the two
clients carry the same base_url. -/
theorem c6_engagespot_new_is_builder_build (k s : String) :
    Engagespot.new k s
      = RustOutcome.map EngagespotBuilder.build (EngagespotBuilder.new k s) := by
  cases hc : create_default_client k s <;>
    simp [Engagespot.new, EngagespotBuilder.new, RustOutcome.map, hc]

/-- Claim C8: create_or_update_user_attrs issues its one request as a PUT
to base_url/users/identifier — the identifier interpolated as-is,
unescaped — with the serialized attrs as the JSON body. -/
theorem c8_user_attrs_put_request (c : Engagespot) (identifier : String)
    (attrs : Json) :
    (c.create_or_update_user_attrs_request identifier attrs).method = HttpMethod.PUT
    ∧ (c.create_or_update_user_attrs_request identifier attrs).url
      = c.base_url ++ "/users/" ++ identifier
    ∧ (c.create_or_update_user_attrs_request identifier attrs).body = attrs := by
  refine ⟨rfl, ?_, rfl⟩
  show c.base_url ++ "/" ++ ("users/" ++ identifier)
      = c.base_url ++ "/users/" ++ identifier
  rw [← String.append_assoc (c.base_url ++ "/") "users/" identifier,
      String.append_assoc c.base_url "/" "users/"]
  rfl
